import Mathlib

/-!
Shallow embedding of the decision-support core of the Culvers flavor-of-the-day
worker (Cloudflare Worker, JavaScript), together with theorems checking the
natural-language specification against it.

Embedded modules:
* `worker/src/certainty.js`   -- certainty tier policy (`determineCertaintyTier`, `certaintyCap`)
* `worker/src/reliability.js` -- per-store reliability index (`computeReliability`)
* `worker/src/metrics.js`     -- signal detection (`detectOverdue`)
* `drive.js` (trip planner)   -- `buildCard`, `handleDrive` and their parsing helpers

Modelling conventions:
* JS numbers are modelled as `ℚ` (scores, probabilities, distances, hours) or
  `ℤ` (integer counts, millisecond timestamps, rounded values).  `Math.round`
  is round-half-up (`jsRound`), `Math.floor`-free code needs no other rounding.
* Async database / KV / fetch calls are modelled as fields of an explicit
  environment record (`DriveEnv`): each field is the pure function the call
  would return.  The content-tag classifier (`extractFlavorTags`), the
  haversine distance (trigonometric, not representable over `ℚ`) and the
  cadence query are oracles in that environment; every theorem quantifies
  over them.
* Presentation-only string fields that interpolate numbers into prose
  (`reason`, `headline`, `explanation`, `recommendation`, `computed_at`) are
  not modelled; all decision-bearing fields are.
-/

/-- JavaScript `Math.round`: round half toward positive infinity. -/
def jsRound (q : ℚ) : ℤ := ⌊q + 1/2⌋

/-- `clamp(value, min, max)` from drive.js: `Math.max(min, Math.min(max, value))`. -/
def clamp (value lo hi : ℤ) : ℤ := max lo (min hi value)

/-- `clamp` over rationals, as used for the reliability score
(`Math.max(0, Math.min(1, ...))`). -/
def clampQ (value lo hi : ℚ) : ℚ := max lo (min hi value)

/-! ## certainty.js -/

/-- `TIERS.CONFIRMED` from certainty.js. -/
def TIERS_CONFIRMED : String := "confirmed"

/-- `TIERS.WATCH` from certainty.js. -/
def TIERS_WATCH : String := "watch"

/-- `TIERS.ESTIMATED` from certainty.js. -/
def TIERS_ESTIMATED : String := "estimated"

/-- `TIERS.NONE` from certainty.js. -/
def TIERS_NONE : String := "none"

/-- The `opts` argument of `determineCertaintyTier` (certainty.js).  The JS
defaults are `hasConfirmed = false`, `hasForecast = false`, `probability = 0`,
`historyDepth = 0`; `reliabilityTier` has no default (`undefined` is modelled
as `none`). -/
structure CertaintyOpts where
  hasConfirmed : Bool
  hasForecast : Bool
  probability : ℚ
  historyDepth : ℤ
  reliabilityTier : Option String

/-- `determineCertaintyTier` from certainty.js lines 29-54. -/
def determineCertaintyTier (opts : CertaintyOpts) : String :=
  if opts.hasConfirmed then
    if opts.reliabilityTier = some "watch" ∨ opts.reliabilityTier = some "unreliable" then
      TIERS_WATCH
    else
      TIERS_CONFIRMED
  else if opts.hasForecast ∧ opts.probability > 4/100 ∧ opts.historyDepth ≥ 30 then
    TIERS_ESTIMATED
  else if opts.hasForecast then
    TIERS_ESTIMATED
  else
    TIERS_NONE

/-- `certaintyCap` from certainty.js lines 64-77.  The `switch` default
(unrecognized tier, including `TIERS.NONE`) returns 0. -/
def certaintyCap (tier : String) (probability : ℚ) : ℚ :=
  if tier = TIERS_CONFIRMED then 1
  else if tier = TIERS_WATCH then 7/10
  else if tier = TIERS_ESTIMATED then min (1/2) (probability * 5)
  else 0

/-! ## reliability.js

The D1 `snapshots` query returns rows `{date, fetched_at}` for one store within
the trailing 30-day window; `computeReliability` is otherwise pure.  We index
calendar dates by integers such that the window days `allDates` are `0..29`
(a row's date may fall outside, e.g. on the cutoff day itself); `fetched_at`
is a millisecond timestamp and a date's UTC midnight is `date * 86400000`.
Rows whose `fetched_at` is missing or unparsable carry `none`.  The `slug`,
`brand`, `forward_change_rate`, `late_change_rate`, `reason` and `computed_at`
fields of the returned record are pass-through or presentation-only and are
not modelled. -/

/-- One row of the `snapshots` query in reliability.js. -/
structure SnapshotRow where
  date : ℤ
  fetchedAt : Option ℤ
deriving DecidableEq

/-- `WINDOW_DAYS` from reliability.js. -/
def WINDOW_DAYS : ℕ := 30

/-- `TIER_CONFIRMED` from reliability.js. -/
def TIER_CONFIRMED : ℚ := 7/10

/-- `TIER_WATCH` from reliability.js. -/
def TIER_WATCH : ℚ := 4/10

/-- The `allDates` array of reliability.js lines 49-56: the 30 window days. -/
def allDatesList : List ℤ := (List.range WINDOW_DAYS).map Int.ofNat

/-- `presentDates.has(d)`: whether some snapshot row has date `d`. -/
def presentAt (rows : List SnapshotRow) (d : ℤ) : Bool :=
  rows.any (fun r => r.date = d)

/-- `missingCount` from reliability.js lines 59-62. -/
def missingCountOf (rows : List SnapshotRow) : ℕ :=
  (allDatesList.filter (fun d => !presentAt rows d)).length

/-- `missingRate = missingCount / allDates.length` (reliability.js line 63). -/
def missingRateOf (rows : List SnapshotRow) : ℚ :=
  (missingCountOf rows : ℚ) / (allDatesList.length : ℚ)

/-- The per-row freshness lags in hours (reliability.js lines 66-76):
`|fetched_at − date midnight| / 3600000`, skipping rows without a usable
timestamp. -/
def lagsOf (rows : List SnapshotRow) : List ℚ :=
  rows.filterMap (fun r => r.fetchedAt.map
    (fun t => |(t : ℚ) - (r.date : ℚ) * 86400000| / 3600000))

/-- `avgLagHours` (reliability.js line 77): mean lag, defaulting to the worst
case 24h when no row yields a usable lag. -/
def avgLagHoursOf (rows : List SnapshotRow) : ℚ :=
  let lags := lagsOf rows
  if 0 < lags.length then lags.foldl (· + ·) 0 / (lags.length : ℚ) else 24

/-- The gap-walk of reliability.js lines 83-95: maximal runs of consecutive
missing window days, given the presence flag of each window day in order. -/
def gapRuns (flags : List Bool) (currentGap : ℕ) : List ℕ :=
  match flags with
  | [] => if 0 < currentGap then [currentGap] else []
  | present :: rest =>
    if present then
      (if 0 < currentGap then currentGap :: gapRuns rest 0 else gapRuns rest 0)
    else
      gapRuns rest (currentGap + 1)

/-- `gapLengths` from reliability.js lines 83-95. -/
def gapLengthsOf (rows : List SnapshotRow) : List ℕ :=
  gapRuns (allDatesList.map (presentAt rows)) 0

/-- `avgRecoveryDays` (reliability.js lines 97-99). -/
def avgRecoveryDaysOf (rows : List SnapshotRow) : ℚ :=
  let gl := gapLengthsOf rows
  if 0 < gl.length then ((gl.foldl (· + ·) 0 : ℕ) : ℚ) / (gl.length : ℚ) else 0

/-- The composite `score` of reliability.js lines 106-108, before rounding. -/
def rawReliabilityScore (rows : List SnapshotRow) : ℚ :=
  let lagNorm := min (avgLagHoursOf rows / 24) 1
  let recoveryNorm := min (avgRecoveryDaysOf rows / 7) 1
  clampQ (1 - (4/10 * missingRateOf rows + 3/10 * lagNorm + 3/10 * recoveryNorm)) 0 1

/-- `roundedScore` (reliability.js line 111): round to 4 decimal places. -/
def roundedReliabilityScore (rows : List SnapshotRow) : ℚ :=
  (jsRound (rawReliabilityScore rows * 10000) : ℚ) / 10000

/-- The tier assignment of reliability.js lines 114-121. -/
def reliabilityTierOf (roundedScore : ℚ) : String :=
  if TIER_CONFIRMED ≤ roundedScore then "confirmed"
  else if TIER_WATCH ≤ roundedScore then "watch"
  else "unreliable"

/-- The decision-bearing fields of the record returned by `computeReliability`
(reliability.js lines 130-143). -/
structure ReliabilityRecord where
  freshness_lag_avg_hours : ℚ
  missing_window_rate : ℚ
  recovery_time_avg_hours : ℚ
  reliability_score : ℚ
  reliability_tier : String
  window_days : ℕ
deriving DecidableEq

/-- `computeReliability` from reliability.js lines 26-144: `null` when the
store has no snapshot in the window, otherwise the metrics record. -/
def computeReliability (rows : List SnapshotRow) : Option ReliabilityRecord :=
  if rows = [] then none
  else some {
    freshness_lag_avg_hours := (jsRound (avgLagHoursOf rows * 100) : ℚ) / 100
    missing_window_rate := (jsRound (missingRateOf rows * 10000) : ℚ) / 10000
    recovery_time_avg_hours := (jsRound (avgRecoveryDaysOf rows * 24 * 100) : ℚ) / 100
    reliability_score := roundedReliabilityScore rows
    reliability_tier := reliabilityTierOf (roundedReliabilityScore rows)
    window_days := WINDOW_DAYS }

/-! ## metrics.js: overdue signal detection

`detectOverdue` works on `flavorHistory = [{flavor, dates}]` where each date
is parsed with `new Date(d).getTime()`; we model the parsed millisecond
timestamps directly (`dates : List ℤ`, `today : ℤ` in ms).  JS
`Array.prototype.sort` with a numeric comparator is modelled by an insertion
sort (same multiset, sortedness is all the source relies on).  The
presentation strings `headline`/`explanation` are omitted from the signal
record; all evidence numbers and the ranking score are kept. -/

/-- Insert into a list directly before the first element `b` with `le a b`. -/
def insertSorted {α : Type} (le : α → α → Bool) (a : α) : List α → List α
  | [] => [a]
  | b :: rest => if le a b then a :: b :: rest else b :: insertSorted le a rest

/-- Insertion sort with a boolean comparison, modelling `Array.sort(cmp)`. -/
def sortByLe {α : Type} (le : α → α → Bool) : List α → List α
  | [] => []
  | a :: rest => insertSorted le a (sortByLe le rest)

/-- `dates.map(getTime).sort((a, b) => a - b)`: ascending numeric sort. -/
def sortAsc (dates : List ℤ) : List ℤ := sortByLe (fun a b => a ≤ b) dates

/-- The `gaps` array of metrics.js lines 770-773: day-valued gaps between
consecutive entries of the sorted timestamp list. -/
def consecGaps : List ℤ → List ℚ
  | a :: b :: rest => ((b - a : ℤ) : ℚ) / 86400000 :: consecGaps (b :: rest)
  | _ => []

/-- `MIN_APPEARANCES` from metrics.js. -/
def MIN_APPEARANCES : ℕ := 3

/-- `avgGap` (metrics.js line 776): mean of the consecutive gaps in days. -/
def overdueAvgGapOf (dates : List ℤ) : ℚ :=
  let gaps := consecGaps (sortAsc dates)
  gaps.foldl (· + ·) 0 / (gaps.length : ℚ)

/-- `daysSince` (metrics.js line 777): days between today and the last sorted
appearance.  The `getLastD 0` default is unreachable under the caller's
`gaps.length == 0` guard. -/
def daysSinceLastOf (dates : List ℤ) (today : ℤ) : ℚ :=
  ((today - (sortAsc dates).getLastD 0 : ℤ) : ℚ) / 86400000

/-- The overdue ratio `daysSince / avgGap` (metrics.js line 778). -/
def overdueRatioOf (dates : List ℤ) (today : ℤ) : ℚ :=
  daysSinceLastOf dates today / overdueAvgGapOf dates

/-- The signal object pushed at metrics.js lines 781-789 (evidence numbers and
score; prose strings omitted).  `ratio_tenths` models `evidence.ratio`,
rounded to one decimal place. -/
structure OverdueSignal where
  type : String
  flavor : String
  action : String
  avg_gap_days : ℤ
  days_since : ℤ
  ratio_tenths : ℚ
  appearances : ℕ
  score : ℚ
deriving DecidableEq

/-- The overdue signal built for one history entry (metrics.js 781-789). -/
def mkOverdueSignal (e : String × List ℤ) (today : ℤ) : OverdueSignal :=
  { type := "overdue"
    flavor := e.1
    action := "alert"
    avg_gap_days := jsRound (overdueAvgGapOf e.2)
    days_since := jsRound (daysSinceLastOf e.2 today)
    ratio_tenths := (jsRound (overdueRatioOf e.2 today * 10) : ℚ) / 10
    appearances := e.2.length
    score := overdueRatioOf e.2 today }

/-- The per-entry body of the `detectOverdue` loop (metrics.js lines 766-791).
The fire threshold `3/2` is `OVERDUE_RATIO` from metrics.js. -/
def overdueSignalFor (e : String × List ℤ) (today : ℤ) : Option OverdueSignal :=
  if e.2.length < MIN_APPEARANCES then none
  else if consecGaps (sortAsc e.2) = [] then none
  else if 3/2 ≤ overdueRatioOf e.2 today ∧ 2 ≤ overdueAvgGapOf e.2 then
    some (mkOverdueSignal e today)
  else none

/-- `detectOverdue` from metrics.js lines 762-794: collect the per-entry
signals, then sort by score descending. -/
def detectOverdue (flavorHistory : List (String × List ℤ)) (today : ℤ) :
    List OverdueSignal :=
  sortByLe (fun a b => b.score ≤ a.score)
    (flavorHistory.filterMap (fun e => overdueSignalFor e today))

/-- A flavor history with average gap 10 days: appearances on days 0, 10 and
20 (in ms since epoch). -/
def gapTenDates : List ℤ := [0, 864000000, 1728000000]

/-- A store whose 30-day window is fully covered, every snapshot fetched
4 hours after the date's midnight: one row per window day `0..29`, each with
`fetched_at = date midnight + 4h` (4h = 14400000 ms). -/
def perfectRows : List SnapshotRow :=
  (List.range WINDOW_DAYS).map
    (fun i => { date := (i : ℤ), fetchedAt := some ((i : ℤ) * 86400000 + 14400000) })

/-! ## drive.js: trip-planning scoring engine

`handleDrive` / `buildCard` mix pure scoring with external lookups
(`STORE_COORDS`, `getFlavorsCached`, `getForecastData`, `fetchFlavorCadence`,
`extractFlavorTags`, `haversine`, the current date, `fetchNearbyLeaderboard`).
Each lookup is a field of an explicit environment `DriveEnv`: the pure
function that the awaited call returns.  `extractFlavorTags` (regex-driven
content classifier), `haversine` (trigonometric) and the cadence query are
oracles quantified over by every theorem.  The `recommendation` prose line is
presentation-only and omitted from the card record.  JS string primitives are
modelled on the character list: `jsTrim`, `jsToLower`, `jsSplitComma`. -/

/-- JavaScript `String.prototype.trim` (whitespace at both ends). -/
def jsTrim (s : String) : String :=
  String.mk (((s.data.dropWhile Char.isWhitespace).reverse.dropWhile
    Char.isWhitespace).reverse)

/-- JavaScript `String.prototype.toLowerCase` (ASCII case fold). -/
def jsToLower (s : String) : String := String.mk (s.data.map Char.toLower)

/-- Helper of `jsSplitComma`: split a character list at commas. -/
def splitCommaAux : List Char → List Char → List String
  | [], acc => [String.mk acc.reverse]
  | c :: rest, acc =>
    if c = ',' then String.mk acc.reverse :: splitCommaAux rest []
    else splitCommaAux rest (c :: acc)

/-- JavaScript `raw.split(',')`. -/
def jsSplitComma (s : String) : List String := splitCommaAux s.data []

/-- JavaScript `a || b` on strings (empty string is falsy). -/
def jsOrStr (a b : String) : String := if a = "" then b else a

/-- JavaScript `String(x || dflt)` for a nullable string `x`. -/
def jsStringOr (o : Option String) (dflt : String) : String :=
  match o with
  | none => dflt
  | some s => if s = "" then dflt else s

/-- `SORT_MODES` from drive.js. -/
def SORT_MODES : List String := ["match", "detour", "rarity", "eta"]

/-- `HARD_EXCLUDE_TAGS` from drive.js. -/
def HARD_EXCLUDE_TAGS : List String := ["nuts", "cheesecake"]

/-- `BOOST_TAGS` from drive.js. -/
def BOOST_TAGS : List String := ["chocolate", "fruit", "caramel", "mint", "coffee", "seasonal", "kids"]

/-- Loop of `parseCsvList` (drive.js lines 18-30).  The accumulator plays the
role of both `seen` and `values`: the source adds to `seen` only after the
allow-set check, so the two always hold the same tags. -/
def parseCsvListAux (allow : Option (List String)) :
    List String → List String → List String
  | [], acc => acc.reverse
  | part :: rest, acc =>
    let cleaned := jsToLower (jsTrim part)
    if cleaned = "" ∨ acc.contains cleaned then parseCsvListAux allow rest acc
    else if (match allow with | some s => !s.contains cleaned | none => false) then
      parseCsvListAux allow rest acc
    else parseCsvListAux allow rest (cleaned :: acc)

/-- `parseCsvList` from drive.js lines 18-30. -/
def parseCsvList (raw : Option String) (allow : Option (List String)) : List String :=
  match raw with
  | none => []
  | some r => if r = "" then [] else parseCsvListAux allow (jsSplitComma r) []

/-- Loop of `parseSlugs` (drive.js lines 32-46).  Unlike `parseCsvList`, the
source adds to `seen` before the allowlist and brand checks, so `seen` and
the result are tracked separately. -/
def parseSlugsAux (valid : List String) (isCulvers : String → Bool) :
    List String → List String → List String → List String
  | [], _seen, acc => acc.reverse
  | part :: rest, seen, acc =>
    let slug := jsTrim part
    if slug = "" ∨ seen.contains slug then parseSlugsAux valid isCulvers rest seen acc
    else if !valid.contains slug then parseSlugsAux valid isCulvers rest (slug :: seen) acc
    else if !isCulvers slug then parseSlugsAux valid isCulvers rest (slug :: seen) acc
    else parseSlugsAux valid isCulvers rest (slug :: seen) (slug :: acc)

/-- `parseSlugs` from drive.js lines 32-46.  `isCulvers` models
`getBrandForSlug(slug)` being equal to the Culvers brand constant. -/
def parseSlugs (raw : Option String) (valid : List String)
    (isCulvers : String → Bool) : List String :=
  match raw with
  | none => []
  | some r => if r = "" then [] else parseSlugsAux valid isCulvers (jsSplitComma r) [] []

/-- Outcome of `parseLocation` (drive.js lines 48-56) on the raw `location`
query parameter: parameter missing or empty (falsy), present but unparsable,
or a parsed latitude/longitude pair.  The float parsing itself is not
re-modelled. -/
inductive LocationParam
  | absent
  | invalid
  | valid (lat lon : ℚ)
deriving DecidableEq

/-- One entry of a store's flavor calendar (from `getFlavorsCached`). -/
structure FlavorCalEntry where
  date : String
  title : String
  description : String
deriving DecidableEq

/-- The value returned by `getFlavorsCached(slug, ...)`. -/
structure FlavorData where
  name : String
  flavors : List FlavorCalEntry
deriving DecidableEq

/-- One value of the `STORE_COORDS` map. -/
structure StoreCoord where
  name : String
  address : String
  lat : ℚ
  lng : ℚ
deriving DecidableEq

/-- One entry of `forecast.forecast.predictions`. -/
structure ForecastPred where
  flavor : String
deriving DecidableEq

/-- The `forecast.forecast` payload of `getForecastData`; a missing or falsy
`date` is modelled by the empty string. -/
structure ForecastData where
  predictions : List ForecastPred
  date : String
deriving DecidableEq

/-- The record returned by `fetchFlavorCadence` (drive.js lines 58-127). -/
structure Cadence where
  appearances : ℕ
  avg_gap_days : Option ℤ
  last_seen : Option String
  days_since_last : Option ℤ
  novelty : Bool
deriving DecidableEq

/-- The environment of external lookups used by `buildCard`/`handleDrive`. -/
structure DriveEnv where
  validSlugs : List String
  isCulvers : String → Bool
  coords : String → Option StoreCoord
  flavorData : String → FlavorData
  forecast : String → Option ForecastData
  extractTags : String → String → List String
  cadence : String → String → Cadence
  distance : ℚ → ℚ → ℚ → ℚ → ℚ
  today : String
  tomorrowStr : String
  leaderboard : List String

/-- `scoreBucket` from drive.js lines 129-133. -/
def scoreBucket (score : ℤ) : String :=
  if 70 ≤ score then "great" else if 45 ≤ score then "ok" else "pass"

/-- `formatEtaMinutes` from drive.js lines 146-149 (null distance → null). -/
def formatEtaMinutes (distanceMiles : Option ℚ) : Option ℤ :=
  distanceMiles.map (fun d => max 3 (jsRound (d * (11/5) + 2)))

/-- `VIBE_RULES` from flavor-tags.js (label, tag). -/
def VIBE_RULES : List (String × String) :=
  [("Fruity", "fruit"), ("Pie-crust", "pie_crust"), ("Bright", "bright"),
   ("Chocolatey", "chocolate"), ("Rich", "rich"), ("Caramel", "caramel"),
   ("Minty", "mint"), ("Coffee", "coffee"), ("Crunchy", "crunchy"),
   ("Cookie", "cookie")]

/-- Loop of `buildVibeTags` (flavor-tags.js lines 118-128): collect matching
labels, stopping once three are selected. -/
def buildVibeTagsAux (tags : List String) :
    List (String × String) → List String → List String
  | [], acc => acc.reverse
  | rule :: rest, acc =>
    let acc2 := if tags.contains rule.2 then rule.1 :: acc else acc
    if 3 ≤ acc2.length then acc2.reverse else buildVibeTagsAux tags rest acc2

/-- `buildVibeTags` from flavor-tags.js. -/
def buildVibeTags (tags : List String) : List String :=
  buildVibeTagsAux tags VIBE_RULES []

/-- `buildDealbreakers` from flavor-tags.js lines 133-139. -/
def buildDealbreakers (excludedTags : List String) : List String :=
  (if excludedTags.contains "nuts" then ["Contains nuts"] else []) ++
  (if excludedTags.contains "cheesecake" then ["Contains cheesecake"] else [])

/-- The flavor resolution step of `buildCard` (drive.js lines 214-239): the
confirmed calendar entry for today, or -- when permitted and today has no
entry -- the top forecast prediction.  When nothing resolves, `flavorName`
stays empty (and `source` stays at its initial value, unused thereafter). -/
structure ResolvedFlavor where
  flavorName : String
  description : String
  source : String
  certaintyTier : String
  date : String
deriving DecidableEq

/-- The parameters of one `buildCard` call (drive.js lines 199-209). -/
structure BuildParams where
  location : Option (ℚ × ℚ)
  excludeTags : List String
  boostTags : List String
  avoidTags : List String
  includeEstimated : Bool
  allowEstimatedFallback : Bool
  includeTomorrow : Bool

/-- `resolveFlavor` models drive.js lines 214-239. -/
def resolveFlavor (env : DriveEnv) (p : BuildParams) (slug : String) :
    ResolvedFlavor :=
  match (env.flavorData slug).flavors.find? (fun entry => entry.date = env.today) with
  | some entry => ⟨entry.title, entry.description, "confirmed", "confirmed", entry.date⟩
  | none =>
    if p.includeEstimated ∨ p.allowEstimatedFallback then
      match (env.forecast slug).bind (fun f => f.predictions.head?) with
      | some pred =>
        if pred.flavor ≠ "" then
          ⟨pred.flavor, "", "estimated", "estimated",
            match env.forecast slug with
            | some f => jsOrStr f.date env.today
            | none => env.today⟩
        else ⟨"", "", "confirmed", "confirmed", env.today⟩
      | none => ⟨"", "", "confirmed", "confirmed", env.today⟩
    else ⟨"", "", "confirmed", "confirmed", env.today⟩

/-- `coord?.name || flavorData.name || slug` (drive.js lines 246, 285). -/
def nameOf (env : DriveEnv) (slug : String) : String :=
  jsOrStr (match env.coords slug with | some c => c.name | none => "")
    (jsOrStr (env.flavorData slug).name slug)

/-- `coord?.address || ''` (drive.js lines 247, 286). -/
def addressOf (env : DriveEnv) (slug : String) : String :=
  match env.coords slug with | some c => c.address | none => ""

/-- `distanceMiles` (drive.js line 211): haversine distance when both a user
location and store coordinates are known, else null. -/
def distanceMilesOf (env : DriveEnv) (p : BuildParams) (slug : String) : Option ℚ :=
  match p.location, env.coords slug with
  | some loc, some c => some (env.distance loc.1 loc.2 c.lat c.lng)
  | _, _ => none

/-- The resolved flavor's content tags (drive.js line 255). -/
def cardTagsOf (env : DriveEnv) (p : BuildParams) (slug : String) : List String :=
  env.extractTags (resolveFlavor env p slug).flavorName
    (resolveFlavor env p slug).description

/-- `matchedExcluded` (drive.js line 256). -/
def matchedExcludedOf (env : DriveEnv) (p : BuildParams) (slug : String) :
    List String :=
  p.excludeTags.filter
    (fun tag => (cardTagsOf env p slug).contains tag && HARD_EXCLUDE_TAGS.contains tag)

/-- `matchedBoostTags` (drive.js line 257). -/
def matchedBoostOf (env : DriveEnv) (p : BuildParams) (slug : String) :
    List String :=
  p.boostTags.filter (fun tag => (cardTagsOf env p slug).contains tag)

/-- `matchedAvoidTags` (drive.js line 258). -/
def matchedAvoidOf (env : DriveEnv) (p : BuildParams) (slug : String) :
    List String :=
  p.avoidTags.filter (fun tag => (cardTagsOf env p slug).contains tag)

/-- `rarity` (drive.js line 262): the cadence lookup for the resolved flavor. -/
def rarityOf (env : DriveEnv) (p : BuildParams) (slug : String) : Cadence :=
  env.cadence slug (resolveFlavor env p slug).flavorName

/-- `rarityBonus` (drive.js line 263). -/
def rarityBonusOf (env : DriveEnv) (p : BuildParams) (slug : String) : ℤ :=
  clamp (jsRound (((rarityOf env p slug).avg_gap_days.getD 0 : ℚ) / 7)) 0 18

/-- `noveltyBonus` (drive.js line 264). -/
def noveltyBonusOf (env : DriveEnv) (p : BuildParams) (slug : String) : ℤ :=
  if (rarityOf env p slug).novelty then 10 else 0

/-- `detourPenalty` (drive.js line 265). -/
def detourPenaltyOf (env : DriveEnv) (p : BuildParams) (slug : String) : ℤ :=
  match distanceMilesOf env p slug with
  | some d => clamp (jsRound (d * (3/2))) 0 20
  | none => 0

/-- The clamped card score (drive.js lines 266-272). -/
def scoreOf (env : DriveEnv) (p : BuildParams) (slug : String) : ℤ :=
  clamp (50 + (matchedBoostOf env p slug).length * 12
      + rarityBonusOf env p slug + noveltyBonusOf env p slug
      - (matchedAvoidOf env p slug).length * 8
      - detourPenaltyOf env p slug) 0 100

/-- The `rarity` sub-record of a card (drive.js lines 301-306). -/
structure RarityInfo where
  avg_gap_days : Option ℤ
  days_since_last : Option ℤ
  last_seen : Option String
  novelty_bonus_applied : Bool
deriving DecidableEq

/-- The `score_breakdown` sub-record of a card (drive.js lines 308-318). -/
structure ScoreBreakdown where
  base : ℤ
  boost : ℤ
  rarity_bonus : ℤ
  novelty_bonus : ℤ
  avoid_penalty : ℤ
  detour_penalty : ℤ
  matched_boost_tags : List String
  matched_avoid_tags : List String
  matched_exclude_tags : List String
deriving DecidableEq

/-- The `tomorrow` preview sub-record (drive.js lines 321-330). -/
structure TomorrowInfo where
  date : String
  flavor : String
  description : String
  certainty_tier : String
deriving DecidableEq

/-- A trip-planning card (drive.js lines 284-330).  `tomorrow = none` covers
both the field being absent (no `include_tomorrow`) and JS `null`; the
`recommendation` prose line is omitted. -/
structure Card where
  slug : String
  name : String
  address : String
  lat : Option ℚ
  lon : Option ℚ
  flavor : String
  description : String
  date : String
  source : String
  certainty_tier : String
  tags : List String
  vibe : List String
  dealbreakers : List String
  distance_miles : Option ℚ
  eta_minutes : Option ℤ
  rarity : RarityInfo
  score : ℤ
  score_breakdown : ScoreBreakdown
  map_bucket : String
  tomorrow : Option TomorrowInfo
deriving DecidableEq

/-- An entry of the `excluded` bucket (drive.js lines 241-253 and 332-345).
`flavor = none` models the `no_confirmed` variant, whose object carries no
flavor field.  Neither variant carries a score. -/
structure ExcludedCard where
  slug : String
  name : String
  address : String
  flavor : Option String
  reasons : List String
  reason_codes : List String
  source : String
deriving DecidableEq

/-- The result of one `buildCard` call: a card or an excluded entry. -/
inductive CardResult
  | card (c : Card)
  | excludedCard (e : ExcludedCard)
deriving DecidableEq

/-- The `tomorrow` preview of a card (drive.js lines 216-221 and 321-330). -/
def tomorrowInfoOf (env : DriveEnv) (p : BuildParams) (slug : String) :
    Option TomorrowInfo :=
  if p.includeTomorrow then
    match (env.flavorData slug).flavors.find? (fun e => e.date = env.tomorrowStr) with
    | some t => if t.title ≠ "" then some ⟨t.date, t.title, t.description, "confirmed"⟩ else none
    | none => none
  else none

/-- The card object assembled at drive.js lines 284-330 (returned only when
the candidate is neither flavorless nor hard-excluded). -/
def theCardOf (env : DriveEnv) (p : BuildParams) (slug : String) : Card :=
  { slug := slug
    name := nameOf env slug
    address := addressOf env slug
    lat := (env.coords slug).map (fun c => c.lat)
    lon := (env.coords slug).map (fun c => c.lng)
    flavor := (resolveFlavor env p slug).flavorName
    description := (resolveFlavor env p slug).description
    date := (resolveFlavor env p slug).date
    source := (resolveFlavor env p slug).source
    certainty_tier := (resolveFlavor env p slug).certaintyTier
    tags := cardTagsOf env p slug
    vibe := buildVibeTags (cardTagsOf env p slug)
    dealbreakers := buildDealbreakers (matchedExcludedOf env p slug)
    distance_miles := (distanceMilesOf env p slug).map (fun d => (jsRound (d * 10) : ℚ) / 10)
    eta_minutes := formatEtaMinutes (distanceMilesOf env p slug)
    rarity := ⟨(rarityOf env p slug).avg_gap_days, (rarityOf env p slug).days_since_last,
      (rarityOf env p slug).last_seen, (rarityOf env p slug).novelty⟩
    score := scoreOf env p slug
    score_breakdown := ⟨50, (matchedBoostOf env p slug).length * 12,
      rarityBonusOf env p slug, noveltyBonusOf env p slug,
      (matchedAvoidOf env p slug).length * 8, detourPenaltyOf env p slug,
      matchedBoostOf env p slug, matchedAvoidOf env p slug, matchedExcludedOf env p slug⟩
    map_bucket := scoreBucket (scoreOf env p slug)
    tomorrow := tomorrowInfoOf env p slug }

/-- The excluded entry for an unresolved flavor (drive.js lines 241-253). -/
def noFlavorExcludedOf (env : DriveEnv) (slug : String) : ExcludedCard :=
  ⟨slug, nameOf env slug, addressOf env slug, none,
    ["No confirmed flavor today."], ["no_confirmed"], "none"⟩

/-- The excluded entry for a hard-excluded flavor (drive.js lines 332-345). -/
def hardPassExcludedOf (env : DriveEnv) (p : BuildParams) (slug : String) :
    ExcludedCard :=
  ⟨slug, nameOf env slug, addressOf env slug,
    some (resolveFlavor env p slug).flavorName,
    buildDealbreakers (matchedExcludedOf env p slug),
    matchedExcludedOf env p slug,
    (resolveFlavor env p slug).source⟩

/-- `buildCard` from drive.js lines 199-348: unresolved flavor goes to the
excluded bucket as `no_confirmed`; a non-empty intersection with the hard
exclude set routes to the excluded bucket (`hardPass`, drive.js lines 273 and
332-345); otherwise the scored card is returned. -/
def buildCard (env : DriveEnv) (p : BuildParams) (slug : String) : CardResult :=
  if (resolveFlavor env p slug).flavorName = "" then
    .excludedCard (noFlavorExcludedOf env slug)
  else if !(matchedExcludedOf env p slug).isEmpty then
    .excludedCard (hardPassExcludedOf env p slug)
  else
    .card (theCardOf env p slug)

/-- `sortCards` from drive.js lines 151-167. -/
def sortCards (cards : List Card) (sortMode : String) : List Card :=
  if sortMode = "detour" then
    sortByLe (fun a b => decide ((a.distance_miles.getD 9999) ≤ (b.distance_miles.getD 9999))) cards
  else if sortMode = "rarity" then
    sortByLe (fun a b => decide ((b.rarity.avg_gap_days.getD (-1)) ≤ (a.rarity.avg_gap_days.getD (-1)))) cards
  else if sortMode = "eta" then
    sortByLe (fun a b => decide ((a.eta_minutes.getD 9999) ≤ (b.eta_minutes.getD 9999))) cards
  else
    sortByLe (fun a b => decide (b.score ≤ a.score)) cards

/-- The query parameters of a `/api/v1/drive` request, each modelled at the
point where `handleDrive` reads it: raw strings for the CSV/flag parameters,
the parse outcome for `location`, and the `Number.parseInt` outcome for
`radius` (`none` = missing or NaN). -/
structure DriveRequest where
  slugs : Option String
  location : LocationParam
  exclude : Option String
  boost : Option String
  avoid : Option String
  sort : Option String
  include_estimated : Option String
  include_tomorrow : Option String
  radiusParam : Option ℤ

/-- The `query` echo of the drive response (drive.js lines 426-436); the
location echo keeps the parsed pair rather than re-formatting it. -/
structure DriveQueryEcho where
  slugs : List String
  location : Option (ℚ × ℚ)
  exclude : List String
  boost : List String
  avoid : List String
  sort : String
  include_estimated : ℕ
  include_tomorrow : ℕ
  radius : ℤ
deriving DecidableEq

/-- The drive response payload (drive.js lines 424-441). -/
structure DrivePayload where
  query : DriveQueryEcho
  cards : List Card
  excluded : List ExcludedCard
  nearby_leaderboard : List String
deriving DecidableEq

/-- A drive endpoint response: an error JSON with an HTTP status, or the
payload. -/
inductive DriveResponse
  | errorResp (message : String) (status : ℕ)
  | ok (payload : DrivePayload)
deriving DecidableEq

/-- The parsed slug list of a drive request (drive.js line 352). -/
def driveSlugsOf (env : DriveEnv) (req : DriveRequest) : List String :=
  parseSlugs req.slugs env.validSlugs env.isCulvers

/-- The parsed location of a drive request (drive.js line 361). -/
def driveLocationOf (req : DriveRequest) : Option (ℚ × ℚ) :=
  match req.location with
  | .valid lat lon => some (lat, lon)
  | _ => none

/-- `excludeTags` (drive.js line 369). -/
def driveExcludeOf (req : DriveRequest) : List String :=
  parseCsvList req.exclude (some HARD_EXCLUDE_TAGS)

/-- `boostTags` (drive.js line 370). -/
def driveBoostOf (req : DriveRequest) : List String :=
  parseCsvList req.boost (some BOOST_TAGS)

/-- `avoidTags` (drive.js line 371). -/
def driveAvoidOf (req : DriveRequest) : List String :=
  parseCsvList req.avoid (some BOOST_TAGS)

/-- `sortMode` (drive.js lines 372-373): lowercase the raw value (default
`match`), then silently fall back to `match` when unrecognized. -/
def driveSortModeOf (req : DriveRequest) : String :=
  let sortModeRaw := jsToLower (jsStringOr req.sort "match")
  if SORT_MODES.contains sortModeRaw then sortModeRaw else "match"

/-- `includeEstimated` (drive.js line 374). -/
def driveIncludeEstimatedOf (req : DriveRequest) : Bool :=
  jsStringOr req.include_estimated "0" = "1"

/-- `includeTomorrow` (drive.js line 375). -/
def driveIncludeTomorrowOf (req : DriveRequest) : Bool :=
  jsStringOr req.include_tomorrow "0" = "1"

/-- `radius` (drive.js line 376): `parseInt` yielding NaN -- and, through the
`|| 25` fallback, also 0 -- defaults to 25, then clamps to `[1, 100]`. -/
def driveRadiusOf (req : DriveRequest) : ℤ :=
  clamp (match req.radiusParam with
    | none => 25
    | some n => if n = 0 then 25 else n) 1 100

/-- The `buildCard` parameters of the first batch pass (drive.js lines
378-390): estimated fallback not permitted. -/
def driveFirstParamsOf (req : DriveRequest) : BuildParams :=
  ⟨driveLocationOf req, driveExcludeOf req, driveBoostOf req, driveAvoidOf req,
    driveIncludeEstimatedOf req, false, driveIncludeTomorrowOf req⟩

/-- The `buildCard` parameters of the fallback pass (drive.js lines 399-411):
estimated results permitted. -/
def driveFallbackParamsOf (req : DriveRequest) : BuildParams :=
  ⟨driveLocationOf req, driveExcludeOf req, driveBoostOf req, driveAvoidOf req,
    true, true, driveIncludeTomorrowOf req⟩

/-- `results.filter(r => r.type === 'card').map(r => r.value)`. -/
def cardsOf (results : List CardResult) : List Card :=
  results.filterMap (fun r => match r with | .card c => some c | _ => none)

/-- `results.filter(r => r.type === 'excluded').map(r => r.value)`. -/
def excludedOf (results : List CardResult) : List ExcludedCard :=
  results.filterMap (fun r => match r with | .excludedCard e => some e | _ => none)

/-- The first batch pass over all parsed slugs (drive.js lines 378-390). -/
def driveFirstResultsOf (env : DriveEnv) (req : DriveRequest) : List CardResult :=
  (driveSlugsOf env req).map (fun slug => buildCard env (driveFirstParamsOf req) slug)

/-- The fallback batch pass (drive.js lines 399-411). -/
def driveFallbackResultsOf (env : DriveEnv) (req : DriveRequest) : List CardResult :=
  (driveSlugsOf env req).map (fun slug => buildCard env (driveFallbackParamsOf req) slug)

/-- The confirmed-first fallback condition (drive.js lines 397-398): no card
of the first pass has a confirmed source, and estimates were not explicitly
requested. -/
def driveFallbackCondOf (env : DriveEnv) (req : DriveRequest) : Bool :=
  !(cardsOf (driveFirstResultsOf env req)).any (fun c => c.source = "confirmed") &&
    !driveIncludeEstimatedOf req

/-- The card list the response is built from (drive.js lines 392-413): the
fallback pass's cards replace the first pass's when the fallback runs. -/
def driveCardsOf (env : DriveEnv) (req : DriveRequest) : List Card :=
  if driveFallbackCondOf env req then cardsOf (driveFallbackResultsOf env req)
  else cardsOf (driveFirstResultsOf env req)

/-- The `query` echo object (drive.js lines 426-436). -/
def driveQueryOf (env : DriveEnv) (req : DriveRequest) : DriveQueryEcho :=
  ⟨driveSlugsOf env req, driveLocationOf req, driveExcludeOf req,
    driveBoostOf req, driveAvoidOf req, driveSortModeOf req,
    if driveIncludeEstimatedOf req then 1 else 0,
    if driveIncludeTomorrowOf req then 1 else 0,
    driveRadiusOf req⟩

/-- `handleDrive` from drive.js lines 350-449.  The two `Response.json`
error returns keep their HTTP 400 status; the message text is abbreviated. -/
def handleDrive (env : DriveEnv) (req : DriveRequest) : DriveResponse :=
  if (driveSlugsOf env req).length < 2 ∨ 5 < (driveSlugsOf env req).length then
    .errorResp "Invalid slugs parameter. Provide 2 to 5 Culvers store slugs." 400
  else if req.location = .invalid then
    .errorResp "Invalid location parameter. Expected format: lat,lon." 400
  else
    .ok { query := driveQueryOf env req
          cards := sortCards (driveCardsOf env req) (driveSortModeOf req)
          excluded := excludedOf (driveFirstResultsOf env req)
          nearby_leaderboard := env.leaderboard }

/-- A one-store environment whose flavor of the day is hard-excluded: the
resolved flavor "Pecan Dream" carries the `nuts` tag. -/
def envX : DriveEnv :=
  { validSlugs := ["x1", "x2"]
    isCulvers := fun _ => true
    coords := fun _ => none
    flavorData := fun slug =>
      if slug = "x1" then ⟨"Store X1", [⟨"2026-10-11", "Pecan Dream", "with pecans"⟩]⟩
      else ⟨"Store X2", []⟩
    forecast := fun _ => none
    extractTags := fun flavorName _ => if flavorName = "Pecan Dream" then ["nuts"] else []
    cadence := fun _ _ => ⟨0, none, none, none, false⟩
    distance := fun _ _ _ _ => 0
    today := "2026-10-11"
    tomorrowStr := "2026-10-12"
    leaderboard := [] }

/-- Build parameters excluding `nuts`, as parsed from `exclude=nuts`. -/
def pX : BuildParams := ⟨none, ["nuts"], [], [], false, false, false⟩

/-- An environment with a plain confirmed flavor and no exclusions. -/
def envW : DriveEnv :=
  { validSlugs := ["w1", "w2"]
    isCulvers := fun _ => true
    coords := fun _ => none
    flavorData := fun slug =>
      if slug = "w1" then ⟨"Store W1", [⟨"2026-10-11", "Vanilla", ""⟩]⟩
      else ⟨"Store W2", []⟩
    forecast := fun _ => none
    extractTags := fun _ _ => []
    cadence := fun _ _ => ⟨1, none, none, none, false⟩
    distance := fun _ _ _ _ => 0
    today := "2026-10-11"
    tomorrowStr := "2026-10-12"
    leaderboard := [] }

/-- Build parameters with no tags at all. -/
def pW : BuildParams := ⟨none, [], [], [], false, false, false⟩

/-- A two-store environment with one confirmed flavor, used with requests to
the drive endpoint. -/
def envY : DriveEnv :=
  { validSlugs := ["y1", "y2"]
    isCulvers := fun _ => true
    coords := fun _ => none
    flavorData := fun slug =>
      if slug = "y1" then ⟨"Store Y1", [⟨"2026-10-11", "Vanilla", ""⟩]⟩
      else ⟨"Store Y2", []⟩
    forecast := fun _ => none
    extractTags := fun _ _ => []
    cadence := fun _ _ => ⟨0, none, none, none, false⟩
    distance := fun _ _ _ _ => 0
    today := "2026-10-11"
    tomorrowStr := "2026-10-12"
    leaderboard := [] }

/-- A drive request for two valid stores with `sort=banana`. -/
def reqY : DriveRequest :=
  ⟨some "y1,y2", .absent, none, none, none, some "banana", none, none, none⟩

/-- A two-store environment in which the only schedulable data is a forecast
whose predicted flavor is hard-excludable: store `z1` has no calendar entry
for today but predicts "Pecan Pie" (tagged `nuts`); store `z2` has nothing. -/
def envZ : DriveEnv :=
  { validSlugs := ["z1", "z2"]
    isCulvers := fun _ => true
    coords := fun _ => none
    flavorData := fun slug =>
      if slug = "z1" then ⟨"Store Z1", []⟩ else ⟨"Store Z2", []⟩
    forecast := fun slug =>
      if slug = "z1" then some ⟨[⟨"Pecan Pie"⟩], ""⟩ else none
    extractTags := fun flavorName _ =>
      if flavorName = "Pecan Pie" then ["nuts"] else []
    cadence := fun _ _ => ⟨0, none, none, none, false⟩
    distance := fun _ _ _ _ => 0
    today := "2026-10-11"
    tomorrowStr := "2026-10-12"
    leaderboard := [] }

/-- The drive request `slugs=z1,z2&exclude=nuts` (no `include_estimated`). -/
def reqZ : DriveRequest :=
  ⟨some "z1,z2", .absent, some "nuts", none, none, none, none, none, none⟩

/-- A two-store environment where nothing is confirmed today but store `e1`
has an innocuous forecast prediction. -/
def envE : DriveEnv :=
  { validSlugs := ["e1", "e2"]
    isCulvers := fun _ => true
    coords := fun _ => none
    flavorData := fun slug =>
      if slug = "e1" then ⟨"Store E1", []⟩ else ⟨"Store E2", []⟩
    forecast := fun slug =>
      if slug = "e1" then some ⟨[⟨"Lemon Berry"⟩], ""⟩ else none
    extractTags := fun _ _ => []
    cadence := fun _ _ => ⟨0, none, none, none, false⟩
    distance := fun _ _ _ _ => 0
    today := "2026-10-11"
    tomorrowStr := "2026-10-12"
    leaderboard := [] }

/-- The drive request `slugs=e1,e2` with no further parameters. -/
def reqE : DriveRequest :=
  ⟨some "e1,e2", .absent, none, none, none, none, none, none, none⟩

/-- The ok payload `handleDrive` assembles for `envE`/`reqE`. -/
def payloadE : DrivePayload :=
  { query := driveQueryOf envE reqE
    cards := sortCards (driveCardsOf envE reqE) (driveSortModeOf reqE)
    excluded := excludedOf (driveFirstResultsOf envE reqE)
    nearby_leaderboard := envE.leaderboard }

/-! ## Theorems -/

/-- C1: for every probability p in [0,1], `certaintyCap` satisfies the strict
ordering `certaintyCap(confirmed) = 1 > certaintyCap(watch) = 0.7 >
certaintyCap(estimated, p) = min(0.5, 5p) ≥ certaintyCap(none) = 0`, so a
confirmed entry can never be outranked by an estimate; in particular
`certaintyCap(estimated, 0.05) = 0.25`, `certaintyCap(estimated, 0.2) = 0.5`
(capped), and an unrecognized tier maps to 0. -/
theorem certaintyCap_ordering (p : ℚ) (h0 : 0 ≤ p) (h1 : p ≤ 1) :
    certaintyCap TIERS_CONFIRMED p = 1 ∧
    certaintyCap TIERS_WATCH p = 7/10 ∧
    certaintyCap TIERS_ESTIMATED p = min (1/2) (p * 5) ∧
    certaintyCap TIERS_NONE p = 0 ∧
    certaintyCap TIERS_CONFIRMED p > certaintyCap TIERS_WATCH p ∧
    certaintyCap TIERS_WATCH p > certaintyCap TIERS_ESTIMATED p ∧
    certaintyCap TIERS_ESTIMATED p ≥ certaintyCap TIERS_NONE p ∧
    certaintyCap TIERS_ESTIMATED (1/20) = 1/4 ∧
    certaintyCap TIERS_ESTIMATED (1/5) = 1/2 ∧
    certaintyCap "mystery-tier" p = 0 := by
  have hc : certaintyCap TIERS_CONFIRMED p = 1 := by
    simp [certaintyCap, TIERS_CONFIRMED]
  have hw : certaintyCap TIERS_WATCH p = 7/10 := by
    simp [certaintyCap, TIERS_WATCH, TIERS_CONFIRMED]
  have he : ∀ q : ℚ, certaintyCap TIERS_ESTIMATED q = min (1/2) (q * 5) := fun q => by
    simp [certaintyCap, TIERS_ESTIMATED, TIERS_CONFIRMED, TIERS_WATCH]
  have hn : certaintyCap TIERS_NONE p = 0 := by
    simp [certaintyCap, TIERS_NONE, TIERS_CONFIRMED, TIERS_WATCH, TIERS_ESTIMATED]
  refine ⟨hc, hw, he p, hn, ?_, ?_, ?_, ?_, ?_, ?_⟩
  · rw [hc, hw]; norm_num
  · rw [hw, he p]; exact lt_of_le_of_lt (min_le_left _ _) (by norm_num)
  · rw [he p, hn]; exact le_min (by norm_num) (mul_nonneg h0 (by norm_num))
  · rw [he]; norm_num [min_def]
  · rw [he]; norm_num [min_def]
  · simp [certaintyCap, TIERS_CONFIRMED, TIERS_WATCH, TIERS_ESTIMATED]

/-- Witness for `certaintyCap_ordering` at `p = 1/10`. -/
theorem certaintyCap_ordering_witness :
    certaintyCap TIERS_CONFIRMED (1/10) = 1 ∧
    certaintyCap TIERS_WATCH (1/10) = 7/10 ∧
    certaintyCap TIERS_ESTIMATED (1/10) = min (1/2) ((1/10) * 5) ∧
    certaintyCap TIERS_NONE (1/10) = 0 ∧
    certaintyCap TIERS_CONFIRMED (1/10) > certaintyCap TIERS_WATCH (1/10) ∧
    certaintyCap TIERS_WATCH (1/10) > certaintyCap TIERS_ESTIMATED (1/10) ∧
    certaintyCap TIERS_ESTIMATED (1/10) ≥ certaintyCap TIERS_NONE (1/10) ∧
    certaintyCap TIERS_ESTIMATED (1/20) = 1/4 ∧
    certaintyCap TIERS_ESTIMATED (1/5) = 1/2 ∧
    certaintyCap "mystery-tier" (1/10) = 0 :=
  certaintyCap_ordering (1/10) (by norm_num) (by norm_num)

/-- C5: `determineCertaintyTier` returns WATCH when a confirmed entry exists
and the reliability tier is watch or unreliable; CONFIRMED when a confirmed
entry exists otherwise; ESTIMATED whenever no confirmed entry exists but a
forecast exists, for every probability and history depth (the two thresholds
read at certainty.js line 45 have no observable effect); NONE when neither
exists. -/
theorem determineCertaintyTier_spec :
    (∀ hf p d rt, determineCertaintyTier ⟨true, hf, p, d, rt⟩ =
      (if rt = some "watch" ∨ rt = some "unreliable" then TIERS_WATCH else TIERS_CONFIRMED)) ∧
    (∀ p d rt, determineCertaintyTier ⟨false, true, p, d, rt⟩ = TIERS_ESTIMATED) ∧
    (∀ p d rt, determineCertaintyTier ⟨false, false, p, d, rt⟩ = TIERS_NONE) := by
  refine ⟨fun hf p d rt => ?_, fun p d rt => ?_, fun p d rt => ?_⟩ <;>
    simp only [determineCertaintyTier] <;> split_ifs <;> simp_all

/-- `jsRound` is nonnegative on nonnegative input. -/
theorem jsRound_nonneg {q : ℚ} (h : 0 ≤ q) : 0 ≤ jsRound q :=
  Int.le_floor.mpr (by push_cast; linarith)

/-- `jsRound q ≤ n` whenever `q ≤ n` for an integer bound `n`. -/
theorem jsRound_le {q : ℚ} {n : ℤ} (h : q ≤ (n : ℚ)) : jsRound q ≤ n := by
  have hlt : jsRound q < n + 1 := Int.floor_lt.mpr (by push_cast; linarith)
  omega

/-- The raw composite reliability score is clamped to `[0, 1]`. -/
theorem rawReliabilityScore_mem (rows : List SnapshotRow) :
    0 ≤ rawReliabilityScore rows ∧ rawReliabilityScore rows ≤ 1 := by
  unfold rawReliabilityScore clampQ
  constructor
  · exact le_max_left _ _
  · exact max_le (by norm_num) (min_le_left _ _)

/-- The rounded reliability score is still in `[0, 1]`. -/
theorem roundedReliabilityScore_mem (rows : List SnapshotRow) :
    0 ≤ roundedReliabilityScore rows ∧ roundedReliabilityScore rows ≤ 1 := by
  obtain ⟨h0, h1⟩ := rawReliabilityScore_mem rows
  unfold roundedReliabilityScore
  constructor
  · have := jsRound_nonneg (q := rawReliabilityScore rows * 10000) (by linarith)
    positivity
  · have hle : jsRound (rawReliabilityScore rows * 10000) ≤ (10000 : ℤ) :=
      jsRound_le (by push_cast; linarith)
    rw [div_le_one (by norm_num)]
    exact_mod_cast hle

/-- `reliabilityTierOf` partitions scores with no overlap or gap at the
0.4 / 0.7 boundaries. -/
theorem reliabilityTierOf_partition (s : ℚ) :
    (reliabilityTierOf s = "confirmed" ↔ 7/10 ≤ s) ∧
    (reliabilityTierOf s = "watch" ↔ 4/10 ≤ s ∧ s < 7/10) ∧
    (reliabilityTierOf s = "unreliable" ↔ s < 4/10) := by
  unfold reliabilityTierOf TIER_CONFIRMED TIER_WATCH
  split_ifs with h1 h2 <;>
    refine ⟨?_, ?_, ?_⟩ <;> simp <;> first
      | linarith
      | (intro h; linarith)
      | (constructor <;> linarith)

/-- C4: for every store with at least one observation in the 30-day window,
`computeReliability` returns a record whose score lies in `[0,1]` and whose
tier is a total function of the score: confirmed iff score ≥ 0.7, watch iff
0.4 ≤ score < 0.7, unreliable iff score < 0.4, with no overlap or gap at the
boundaries. -/
theorem computeReliability_score_range_tier (rows : List SnapshotRow)
    (hne : rows ≠ []) :
    ∃ rec, computeReliability rows = some rec ∧
      0 ≤ rec.reliability_score ∧ rec.reliability_score ≤ 1 ∧
      (rec.reliability_tier = "confirmed" ↔ 7/10 ≤ rec.reliability_score) ∧
      (rec.reliability_tier = "watch" ↔
        4/10 ≤ rec.reliability_score ∧ rec.reliability_score < 7/10) ∧
      (rec.reliability_tier = "unreliable" ↔ rec.reliability_score < 4/10) := by
  refine ⟨_, by rw [computeReliability, if_neg hne], ?_, ?_, ?_, ?_, ?_⟩
  · exact (roundedReliabilityScore_mem rows).1
  · exact (roundedReliabilityScore_mem rows).2
  · exact (reliabilityTierOf_partition (roundedReliabilityScore rows)).1
  · exact (reliabilityTierOf_partition (roundedReliabilityScore rows)).2.1
  · exact (reliabilityTierOf_partition (roundedReliabilityScore rows)).2.2

/-- Witness for `computeReliability_score_range_tier`: a single snapshot on
window day 29 with a 4-hour lag. -/
theorem computeReliability_score_range_tier_witness :
    ([({ date := 29, fetchedAt := some (29 * 86400000 + 14400000) } : SnapshotRow)] ≠
      ([] : List SnapshotRow)) ∧
    ∃ rec, computeReliability
        [({ date := 29, fetchedAt := some (29 * 86400000 + 14400000) } : SnapshotRow)] =
        some rec ∧
      0 ≤ rec.reliability_score ∧ rec.reliability_score ≤ 1 ∧
      (rec.reliability_tier = "confirmed" ↔ 7/10 ≤ rec.reliability_score) ∧
      (rec.reliability_tier = "watch" ↔
        4/10 ≤ rec.reliability_score ∧ rec.reliability_score < 7/10) ∧
      (rec.reliability_tier = "unreliable" ↔ rec.reliability_score < 4/10) :=
  ⟨by decide, computeReliability_score_range_tier _ (by decide)⟩

theorem mem_insertSorted {α : Type} (le : α → α → Bool) (a x : α) (l : List α) :
    x ∈ insertSorted le a l ↔ x = a ∨ x ∈ l := by
  induction l with
  | nil => simp [insertSorted]
  | cons b rest ih =>
    simp only [insertSorted]
    split_ifs <;> simp [ih] <;> tauto

theorem mem_sortByLe {α : Type} (le : α → α → Bool) (x : α) (l : List α) :
    x ∈ sortByLe le l ↔ x ∈ l := by
  induction l with
  | nil => simp [sortByLe]
  | cons a rest ih => simp [sortByLe, mem_insertSorted, ih]

theorem length_insertSorted {α : Type} (le : α → α → Bool) (a : α) (l : List α) :
    (insertSorted le a l).length = l.length + 1 := by
  induction l with
  | nil => simp [insertSorted]
  | cons b rest ih =>
    simp only [insertSorted]
    split_ifs <;> simp [ih]

theorem length_sortByLe {α : Type} (le : α → α → Bool) (l : List α) :
    (sortByLe le l).length = l.length := by
  induction l with
  | nil => simp [sortByLe]
  | cons a rest ih => simp [sortByLe, length_insertSorted, ih]

theorem length_consecGaps (l : List ℤ) : (consecGaps l).length = l.length - 1 := by
  induction l with
  | nil => simp [consecGaps]
  | cons a rest ih =>
    cases rest with
    | nil => simp [consecGaps]
    | cons b r => simp [consecGaps] at ih ⊢; omega

theorem overdueSignalFor_eq_some (e : String × List ℤ) (today : ℤ)
    (s : OverdueSignal) :
    overdueSignalFor e today = some s ↔
      3 ≤ e.2.length ∧ 3/2 ≤ overdueRatioOf e.2 today ∧
        2 ≤ overdueAvgGapOf e.2 ∧ s = mkOverdueSignal e today := by
  unfold overdueSignalFor
  split_ifs with h1 h2 h3
  · simp [MIN_APPEARANCES] at h1 ⊢; omega
  · exfalso
    have hlen : (consecGaps (sortAsc e.2)).length = e.2.length - 1 := by
      rw [length_consecGaps, sortAsc, length_sortByLe]
    rw [h2] at hlen
    simp [MIN_APPEARANCES] at h1 hlen
    omega
  · simp [MIN_APPEARANCES] at h1
    constructor
    · intro h
      exact ⟨h1, h3.1, h3.2, (Option.some_inj.mp h).symm⟩
    · intro h
      rw [h.2.2.2]
  · simp [MIN_APPEARANCES] at h1
    constructor
    · intro h; simp at h
    · intro h
      exact absurd ⟨h.2.1, h.2.2.1⟩ h3

/-- C6: for every flavor with at least 3 appearance dates, the overdue
detector emits a signal iff `ratio = days_since / avg_gap ≥ 1.5` and
`avg_gap ≥ 2` days, and the signal's ranking score equals the ratio; in
particular avg gap 10 with 20 days since last seen fires with score 2.0,
ratio exactly 1.49 does not fire, and 1.51 does. -/
theorem detectOverdue_characterization :
    (∀ (hist : List (String × List ℤ)) (today : ℤ) (s : OverdueSignal),
      s ∈ detectOverdue hist today ↔
        ∃ e ∈ hist, 3 ≤ e.2.length ∧ 3/2 ≤ overdueRatioOf e.2 today ∧
          2 ≤ overdueAvgGapOf e.2 ∧ s = mkOverdueSignal e today) ∧
    (∀ e today, (mkOverdueSignal e today).score = overdueRatioOf e.2 today) ∧
    (overdueAvgGapOf gapTenDates = 10 ∧
      overdueRatioOf gapTenDates 3456000000 = 2 ∧
      detectOverdue [("Mint Cookie", gapTenDates)] 3456000000 =
        [mkOverdueSignal ("Mint Cookie", gapTenDates) 3456000000]) ∧
    (overdueRatioOf gapTenDates 3015360000 = 149/100 ∧
      detectOverdue [("Mint Cookie", gapTenDates)] 3015360000 = []) ∧
    (overdueRatioOf gapTenDates 3032640000 = 151/100 ∧
      detectOverdue [("Mint Cookie", gapTenDates)] 3032640000 =
        [mkOverdueSignal ("Mint Cookie", gapTenDates) 3032640000]) := by
  have hsorted : sortAsc gapTenDates = gapTenDates := by
    simp [sortAsc, gapTenDates, sortByLe, insertSorted]
  have hgaps : consecGaps (sortAsc gapTenDates) = [10, 10] := by
    rw [hsorted]
    simp [gapTenDates, consecGaps]
    norm_num
  have havg : overdueAvgGapOf gapTenDates = 10 := by
    rw [overdueAvgGapOf, hgaps]
    norm_num [List.foldl]
  have hlast : (sortAsc gapTenDates).getLastD 0 = 1728000000 := by
    rw [hsorted]; simp [gapTenDates]
  have hratioAt : ∀ t : ℤ, overdueRatioOf gapTenDates t =
      ((t - 1728000000 : ℤ) : ℚ) / 86400000 / 10 := by
    intro t
    rw [overdueRatioOf, daysSinceLastOf, hlast, havg]
  refine ⟨?_, fun e today => rfl, ?_, ?_, ?_⟩
  · intro hist today s
    rw [detectOverdue, mem_sortByLe, List.mem_filterMap]
    constructor
    · rintro ⟨e, he, hsome⟩
      exact ⟨e, he, (overdueSignalFor_eq_some e today s).mp hsome⟩
    · rintro ⟨e, he, hconds⟩
      exact ⟨e, he, (overdueSignalFor_eq_some e today s).mpr hconds⟩
  · refine ⟨havg, ?_, ?_⟩
    · rw [hratioAt]; norm_num
    · rw [detectOverdue]
      have : overdueSignalFor ("Mint Cookie", gapTenDates) 3456000000 =
          some (mkOverdueSignal ("Mint Cookie", gapTenDates) 3456000000) := by
        rw [overdueSignalFor_eq_some]
        refine ⟨by simp [gapTenDates], ?_, by rw [havg]; norm_num, rfl⟩
        rw [hratioAt]; norm_num
      simp [this, sortByLe, insertSorted]
  · constructor
    · rw [hratioAt]; norm_num
    · rw [detectOverdue]
      have : overdueSignalFor ("Mint Cookie", gapTenDates) 3015360000 = none := by
        rw [overdueSignalFor]
        rw [if_neg (by simp [gapTenDates, MIN_APPEARANCES]),
          if_neg (by rw [hgaps]; simp)]
        rw [if_neg ?_]
        rintro ⟨hr, -⟩
        rw [hratioAt] at hr
        norm_num at hr
      simp [this, sortByLe]
  · constructor
    · rw [hratioAt]; norm_num
    · rw [detectOverdue]
      have : overdueSignalFor ("Mint Cookie", gapTenDates) 3032640000 =
          some (mkOverdueSignal ("Mint Cookie", gapTenDates) 3032640000) := by
        rw [overdueSignalFor_eq_some]
        refine ⟨by simp [gapTenDates], ?_, by rw [havg]; norm_num, rfl⟩
        rw [hratioAt]; norm_num
      simp [this, sortByLe, insertSorted]

/-- C8: for a store with all 30 window days present, average freshness lag
4 hours and no missing runs, `computeReliability` yields `missing_rate = 0`,
`recovery_time = 0`, `score = 1 − 0.3·(4/24) = 0.95` and tier confirmed. -/
theorem computeReliability_perfect_store :
    ∃ rec, computeReliability perfectRows = some rec ∧
      rec.missing_window_rate = 0 ∧
      rec.recovery_time_avg_hours = 0 ∧
      rec.freshness_lag_avg_hours = 4 ∧
      rec.reliability_score = 19/20 ∧
      rec.reliability_tier = "confirmed" := by
  have hne : perfectRows ≠ [] := by decide
  have hmissCount : missingCountOf perfectRows = 0 := by decide
  have hmiss : missingRateOf perfectRows = 0 := by
    rw [missingRateOf, hmissCount]; norm_num
  have hgaps : gapLengthsOf perfectRows = [] := by decide
  have hrec : avgRecoveryDaysOf perfectRows = 0 := by
    rw [avgRecoveryDaysOf, hgaps]; norm_num
  have hlags : lagsOf perfectRows = List.replicate 30 4 := by
    simp [lagsOf, perfectRows, WINDOW_DAYS, List.range_succ, List.replicate]
    norm_num
  have hlag : avgLagHoursOf perfectRows = 4 := by
    rw [avgLagHoursOf, hlags]
    norm_num [List.replicate, List.foldl]
  have hraw : rawReliabilityScore perfectRows = 19/20 := by
    rw [rawReliabilityScore, hmiss, hrec, hlag]
    norm_num [clampQ, min_def, max_def]
  have hscore : roundedReliabilityScore perfectRows = 19/20 := by
    rw [roundedReliabilityScore, hraw]
    norm_num [jsRound, Int.floor_eq_iff]
  refine ⟨_, by rw [computeReliability, if_neg hne], ?_, ?_, ?_, ?_, ?_⟩
  · show (jsRound (missingRateOf perfectRows * 10000) : ℚ) / 10000 = 0
    rw [hmiss]; norm_num [jsRound, Int.floor_eq_iff]
  · show (jsRound (avgRecoveryDaysOf perfectRows * 24 * 100) : ℚ) / 100 = 0
    rw [hrec]; norm_num [jsRound, Int.floor_eq_iff]
  · show (jsRound (avgLagHoursOf perfectRows * 100) : ℚ) / 100 = 4
    rw [hlag]; norm_num [jsRound, Int.floor_eq_iff]
  · exact hscore
  · show reliabilityTierOf (roundedReliabilityScore perfectRows) = "confirmed"
    rw [hscore]
    rw [reliabilityTierOf, if_pos (by norm_num [TIER_CONFIRMED])]

/-- Membership in `sortCards` is membership in the input list. -/
theorem mem_sortCards (c : Card) (cards : List Card) (mode : String) :
    c ∈ sortCards cards mode ↔ c ∈ cards := by
  unfold sortCards
  split_ifs <;> rw [mem_sortByLe]

/-- An `ok` drive response is exactly the payload assembled from the named
intermediate definitions. -/
theorem handleDrive_ok (env : DriveEnv) (req : DriveRequest)
    (payload : DrivePayload) (h : handleDrive env req = .ok payload) :
    payload = { query := driveQueryOf env req
                cards := sortCards (driveCardsOf env req) (driveSortModeOf req)
                excluded := excludedOf (driveFirstResultsOf env req)
                nearby_leaderboard := env.leaderboard } := by
  unfold handleDrive at h
  split_ifs at h
  cases h
  rfl

/-- `clamp` keeps its value between the bounds. -/
theorem clamp_mem (value lo hi : ℤ) (h : lo ≤ hi) :
    lo ≤ clamp value lo hi ∧ clamp value lo hi ≤ hi :=
  ⟨le_max_left _ _, max_le h (min_le_left _ _)⟩

/-- `buildCard` yields a card exactly when a flavor resolved and no hard
exclude matched, and the card is the assembled one. -/
theorem buildCard_eq_card (env : DriveEnv) (p : BuildParams) (slug : String)
    (c : Card) :
    buildCard env p slug = .card c ↔
      (resolveFlavor env p slug).flavorName ≠ "" ∧
      matchedExcludedOf env p slug = [] ∧ c = theCardOf env p slug := by
  unfold buildCard
  split_ifs with h1 h2
  · simp [h1]
  · simp only [Bool.not_eq_true', List.isEmpty_eq_false] at h2
    simp [h1, h2]
  · simp only [Bool.not_eq_true', Bool.not_eq_false, List.isEmpty_eq_true] at h2
    simp [h1, h2, eq_comm]

/-- Membership in the card bucket of a batch pass. -/
theorem mem_cardsOf_map (env : DriveEnv) (p : BuildParams) (slugs : List String)
    (c : Card) :
    c ∈ cardsOf (slugs.map (fun s => buildCard env p s)) ↔
      ∃ slug ∈ slugs, buildCard env p slug = .card c := by
  unfold cardsOf
  rw [List.filterMap_map, List.mem_filterMap]
  constructor
  · rintro ⟨a, ha, hm⟩
    refine ⟨a, ha, ?_⟩
    revert hm
    cases h : buildCard env p a <;> simp_all
  · rintro ⟨a, ha, hb⟩
    exact ⟨a, ha, by simp [Function.comp, hb]⟩

/-- Every card in the response's card list comes from a `buildCard` call
whose parameters carry the request's parsed exclude tags. -/
theorem mem_driveCards (env : DriveEnv) (req : DriveRequest) (c : Card)
    (h : c ∈ driveCardsOf env req) :
    ∃ slug p, buildCard env p slug = .card c ∧
      p.excludeTags = driveExcludeOf req := by
  unfold driveCardsOf at h
  split_ifs at h <;>
    [ rw [driveFallbackResultsOf, mem_cardsOf_map] at h;
      rw [driveFirstResultsOf, mem_cardsOf_map] at h ] <;>
    obtain ⟨slug, -, hb⟩ := h
  · exact ⟨slug, driveFallbackParamsOf req, hb, rfl⟩
  · exact ⟨slug, driveFirstParamsOf req, hb, rfl⟩

/-- C2: a candidate whose resolved flavor's tags intersect both the caller's
exclude-tag set and the hard-exclude set never becomes a card: `buildCard`
routes it to the excluded bucket with exactly the matched hard-exclude tags
as `reason_codes` (the `ExcludedCard` record carries no score), and no card
of any drive response matches a requested hard-exclude tag. -/
theorem hard_exclude_routing :
    (∀ (env : DriveEnv) (p : BuildParams) (slug : String),
      (resolveFlavor env p slug).flavorName ≠ "" →
      matchedExcludedOf env p slug ≠ [] →
      buildCard env p slug = .excludedCard (hardPassExcludedOf env p slug) ∧
      (hardPassExcludedOf env p slug).reason_codes = matchedExcludedOf env p slug ∧
      ∀ c : Card, buildCard env p slug ≠ .card c) ∧
    (∀ (env : DriveEnv) (req : DriveRequest) (payload : DrivePayload),
      handleDrive env req = .ok payload →
      ∀ c ∈ payload.cards,
        (driveExcludeOf req).filter
          (fun t => c.tags.contains t && HARD_EXCLUDE_TAGS.contains t) = []) := by
  constructor
  · intro env p slug hflavor hmatched
    have hb : buildCard env p slug = .excludedCard (hardPassExcludedOf env p slug) := by
      unfold buildCard
      rw [if_neg hflavor, if_pos (by simpa [List.isEmpty_iff] using hmatched)]
    exact ⟨hb, rfl, fun c hc => by rw [hb] at hc; exact CardResult.noConfusion hc⟩
  · intro env req payload hok c hc
    rw [handleDrive_ok env req payload hok] at hc
    change c ∈ sortCards (driveCardsOf env req) (driveSortModeOf req) at hc
    rw [mem_sortCards] at hc
    obtain ⟨slug, p, hb, hexcl⟩ := mem_driveCards env req c hc
    obtain ⟨-, hmat, hcard⟩ := (buildCard_eq_card env p slug c).mp hb
    rw [← hexcl]
    rw [show c.tags = cardTagsOf env p slug from by rw [hcard]; rfl]
    exact hmat

/-- Witness for `hard_exclude_routing` at the `envX` store `x1`. -/
theorem hard_exclude_routing_witness :
    buildCard envX pX "x1" = .excludedCard (hardPassExcludedOf envX pX "x1") ∧
    (hardPassExcludedOf envX pX "x1").reason_codes = matchedExcludedOf envX pX "x1" ∧
    ∀ c : Card, buildCard envX pX "x1" ≠ .card c :=
  hard_exclude_routing.1 envX pX "x1" (by decide) (by decide)

/-- C7: every card produced by `buildCard` has
`score = clamp(50 + 12·|matched boost| + clamp(round(avg_gap/7), 0, 18)
+ (10 if novelty) − 8·|matched avoid| − detour penalty, 0, 100)`, hence the
score lies in `[0, 100]` however extreme the oracle inputs are. -/
theorem buildCard_score_clamped (env : DriveEnv) (p : BuildParams)
    (slug : String) (c : Card) (h : buildCard env p slug = .card c) :
    c.score = clamp (50 + (matchedBoostOf env p slug).length * 12
        + clamp (jsRound (((rarityOf env p slug).avg_gap_days.getD 0 : ℚ) / 7)) 0 18
        + (if (rarityOf env p slug).novelty then 10 else 0)
        - (matchedAvoidOf env p slug).length * 8
        - detourPenaltyOf env p slug) 0 100 ∧
    0 ≤ c.score ∧ c.score ≤ 100 := by
  obtain ⟨-, -, hcard⟩ := (buildCard_eq_card env p slug c).mp h
  have hs : c.score = scoreOf env p slug := by rw [hcard]; rfl
  refine ⟨?_, ?_, ?_⟩
  · rw [hs]; rfl
  · rw [hs]; exact (clamp_mem _ 0 100 (by norm_num)).1
  · rw [hs]; exact (clamp_mem _ 0 100 (by norm_num)).2

/-- Witness for `buildCard_score_clamped` at the `envW` store `w1`. -/
theorem buildCard_score_clamped_witness :
    (theCardOf envW pW "w1").score =
      clamp (50 + (matchedBoostOf envW pW "w1").length * 12
        + clamp (jsRound (((rarityOf envW pW "w1").avg_gap_days.getD 0 : ℚ) / 7)) 0 18
        + (if (rarityOf envW pW "w1").novelty then 10 else 0)
        - (matchedAvoidOf envW pW "w1").length * 8
        - detourPenaltyOf envW pW "w1") 0 100 ∧
    0 ≤ (theCardOf envW pW "w1").score ∧ (theCardOf envW pW "w1").score ≤ 100 :=
  buildCard_score_clamped envW pW "w1" (theCardOf envW pW "w1") rfl

/-- C9 (amended): a trip-planning request whose sort parameter is not one of
match/detour/rarity/eta is NOT rejected: `handleDrive` silently coerces the
sort mode to `match`, echoes `sort = "match"` in the query, sorts by the
match policy, and still returns an ok response whenever the slug count and
location are valid. -/
theorem handleDrive_unknown_sort_coerced (env : DriveEnv) (req : DriveRequest)
    (hraw : ¬ SORT_MODES.contains (jsToLower (jsStringOr req.sort "match")) = true) :
    driveSortModeOf req = "match" ∧
    (∀ payload, handleDrive env req = .ok payload →
      payload.query.sort = "match" ∧
      payload.cards = sortCards (driveCardsOf env req) "match") ∧
    (2 ≤ (driveSlugsOf env req).length → (driveSlugsOf env req).length ≤ 5 →
      req.location ≠ .invalid →
      ∃ payload, handleDrive env req = .ok payload) := by
  have hsm : driveSortModeOf req = "match" := by
    unfold driveSortModeOf
    rw [if_neg hraw]
  refine ⟨hsm, ?_, ?_⟩
  · intro payload hok
    rw [handleDrive_ok env req payload hok]
    constructor
    · show driveSortModeOf req = "match"
      exact hsm
    · show sortCards (driveCardsOf env req) (driveSortModeOf req) = _
      rw [hsm]
  · intro hlo hhi hloc
    refine ⟨{ query := driveQueryOf env req
              cards := sortCards (driveCardsOf env req) (driveSortModeOf req)
              excluded := excludedOf (driveFirstResultsOf env req)
              nearby_leaderboard := env.leaderboard }, ?_⟩
    unfold handleDrive
    rw [if_neg (by omega), if_neg (by simpa using hloc)]

/-- Witness for `handleDrive_unknown_sort_coerced` at `sort=banana`. -/
theorem handleDrive_unknown_sort_coerced_witness :
    driveSortModeOf reqY = "match" ∧
    (∀ payload, handleDrive envY reqY = .ok payload →
      payload.query.sort = "match" ∧
      payload.cards = sortCards (driveCardsOf envY reqY) "match") ∧
    (2 ≤ (driveSlugsOf envY reqY).length → (driveSlugsOf envY reqY).length ≤ 5 →
      reqY.location ≠ .invalid →
      ∃ payload, handleDrive envY reqY = .ok payload) :=
  handleDrive_unknown_sort_coerced envY reqY (by decide)

/-- Counterexample to C9 as stated: the request `slugs=y1,y2&sort=banana`
has an unknown sort mode, yet `handleDrive` does not reject it -- it answers
with an ok response whose echoed sort mode is `match`. -/
theorem handleDrive_unknown_sort_counterexample :
    (∃ payload, handleDrive envY reqY = .ok payload ∧ payload.query.sort = "match") ∧
    ∀ msg status, handleDrive envY reqY ≠ .errorResp msg status := by
  have hok : handleDrive envY reqY =
      .ok { query := driveQueryOf envY reqY
            cards := sortCards (driveCardsOf envY reqY) (driveSortModeOf reqY)
            excluded := excludedOf (driveFirstResultsOf envY reqY)
            nearby_leaderboard := envY.leaderboard } := by
    unfold handleDrive
    rw [if_neg (by decide), if_neg (by decide)]
  refine ⟨⟨_, hok, ?_⟩, ?_⟩
  · show driveSortModeOf reqY = "match"
    decide
  · intro msg status hcontra
    rw [hok] at hcontra
    exact DriveResponse.noConfusion hcontra

/-- C10: the response's excluded list is always the first (no-estimate)
pass's; when the confirmed-first fallback runs, only the card list is
replaced by the fallback pass's cards, and any exclusion produced during the
fallback pass is discarded. -/
theorem handleDrive_fallback_frame (env : DriveEnv) (req : DriveRequest)
    (payload : DrivePayload) (h : handleDrive env req = .ok payload) :
    payload.excluded = excludedOf (driveFirstResultsOf env req) ∧
    (driveFallbackCondOf env req = true →
      payload.cards =
        sortCards (cardsOf (driveFallbackResultsOf env req)) (driveSortModeOf req)) ∧
    (driveFallbackCondOf env req = false →
      payload.cards =
        sortCards (cardsOf (driveFirstResultsOf env req)) (driveSortModeOf req)) := by
  rw [handleDrive_ok env req payload h]
  refine ⟨rfl, ?_, ?_⟩ <;> intro hc <;>
    · show sortCards (driveCardsOf env req) (driveSortModeOf req) = _
      rw [driveCardsOf, hc]
      simp

/-- Witness for `handleDrive_fallback_frame` on the `envZ` scenario, where
the fallback pass runs (the first pass yields no confirmed card). -/
theorem handleDrive_fallback_frame_witness :
    ({ query := driveQueryOf envZ reqZ
       cards := sortCards (driveCardsOf envZ reqZ) (driveSortModeOf reqZ)
       excluded := excludedOf (driveFirstResultsOf envZ reqZ)
       nearby_leaderboard := envZ.leaderboard } : DrivePayload).excluded =
      excludedOf (driveFirstResultsOf envZ reqZ) ∧
    (driveFallbackCondOf envZ reqZ = true →
      ({ query := driveQueryOf envZ reqZ
         cards := sortCards (driveCardsOf envZ reqZ) (driveSortModeOf reqZ)
         excluded := excludedOf (driveFirstResultsOf envZ reqZ)
         nearby_leaderboard := envZ.leaderboard } : DrivePayload).cards =
        sortCards (cardsOf (driveFallbackResultsOf envZ reqZ)) (driveSortModeOf reqZ)) ∧
    (driveFallbackCondOf envZ reqZ = false →
      ({ query := driveQueryOf envZ reqZ
         cards := sortCards (driveCardsOf envZ reqZ) (driveSortModeOf reqZ)
         excluded := excludedOf (driveFirstResultsOf envZ reqZ)
         nearby_leaderboard := envZ.leaderboard } : DrivePayload).cards =
        sortCards (cardsOf (driveFirstResultsOf envZ reqZ)) (driveSortModeOf reqZ)) :=
  handleDrive_fallback_frame envZ reqZ _ rfl

/-- C3 (amended): `handleDrive` first runs the whole batch without permitting
estimated fallback; if zero resulting cards have source confirmed and the
caller did not set `include_estimated`, the entire batch is re-run once with
estimated fallback permitted and those cards are used instead (all-or-nothing
retry).  Under the additional hypothesis that at least one candidate has no
confirmed entry for today and a forecast prediction with a nonempty flavor
whose tags match no requested hard-exclude tag, at least one returned card
has source `estimated`. -/
theorem handleDrive_confirmed_first_fallback (env : DriveEnv)
    (req : DriveRequest) (payload : DrivePayload)
    (hok : handleDrive env req = .ok payload)
    (hfb : driveFallbackCondOf env req = true)
    (slug : String) (hmem : slug ∈ driveSlugsOf env req)
    (hnotoday : (env.flavorData slug).flavors.find? (fun e => e.date = env.today) = none)
    (pred : ForecastPred)
    (hpred : (env.forecast slug).bind (fun f => f.predictions.head?) = some pred)
    (hflavor : pred.flavor ≠ "")
    (hnohard : (driveExcludeOf req).filter
      (fun t => (env.extractTags pred.flavor "").contains t &&
        HARD_EXCLUDE_TAGS.contains t) = []) :
    payload.cards =
      sortCards (cardsOf (driveFallbackResultsOf env req)) (driveSortModeOf req) ∧
    ∃ c ∈ payload.cards, c.source = "estimated" := by
  have hr : ∃ d, resolveFlavor env (driveFallbackParamsOf req) slug =
      ⟨pred.flavor, "", "estimated", "estimated", d⟩ := by
    unfold resolveFlavor
    rw [hnotoday]
    dsimp only
    have hinc : (driveFallbackParamsOf req).includeEstimated = true := rfl
    rw [if_pos (Or.inl hinc), hpred]
    dsimp only
    rw [if_pos hflavor]
    exact ⟨_, rfl⟩
  obtain ⟨d, hr⟩ := hr
  have hmat : matchedExcludedOf env (driveFallbackParamsOf req) slug = [] := by
    unfold matchedExcludedOf cardTagsOf
    rw [hr]
    exact hnohard
  have hb : buildCard env (driveFallbackParamsOf req) slug =
      .card (theCardOf env (driveFallbackParamsOf req) slug) := by
    rw [buildCard_eq_card]
    exact ⟨by rw [hr]; exact hflavor, hmat, rfl⟩
  have hsource : (theCardOf env (driveFallbackParamsOf req) slug).source = "estimated" := by
    show (resolveFlavor env (driveFallbackParamsOf req) slug).source = "estimated"
    rw [hr]
  have hcards : payload.cards =
      sortCards (cardsOf (driveFallbackResultsOf env req)) (driveSortModeOf req) := by
    rw [handleDrive_ok env req payload hok]
    show sortCards (driveCardsOf env req) _ = _
    rw [driveCardsOf, hfb]
    simp
  refine ⟨hcards, theCardOf env (driveFallbackParamsOf req) slug, ?_, hsource⟩
  rw [hcards, mem_sortCards, driveFallbackResultsOf, mem_cardsOf_map]
  exact ⟨slug, hmem, hb⟩

/-- Witness for `handleDrive_confirmed_first_fallback` on `envE`/`reqE`. -/
theorem handleDrive_confirmed_first_fallback_witness :
    payloadE.cards =
      sortCards (cardsOf (driveFallbackResultsOf envE reqE)) (driveSortModeOf reqE) ∧
    ∃ c ∈ payloadE.cards, c.source = "estimated" :=
  handleDrive_confirmed_first_fallback envE reqE payloadE rfl (by decide)
    "e1" (by decide) (by decide) ⟨"Lemon Berry"⟩ (by decide) (by decide) (by decide)

/-- Counterexample to C3 as stated: in the `envZ` scenario the batch has zero
confirmed cards, estimates were not requested, and a candidate (`z1`) has a
nonempty forecast prediction, yet the response contains no card at all --
the predicted flavor is hard-excluded during the fallback pass, so no
returned card has source `estimated`. -/
theorem handleDrive_fallback_estimated_counterexample :
    driveIncludeEstimatedOf reqZ = false ∧
    (∀ c ∈ cardsOf (driveFirstResultsOf envZ reqZ), c.source ≠ "confirmed") ∧
    ("z1" ∈ driveSlugsOf envZ reqZ ∧
      (envZ.forecast "z1").bind (fun f => f.predictions.head?) =
        some ⟨"Pecan Pie"⟩ ∧ ("Pecan Pie" : String) ≠ "") ∧
    driveFallbackCondOf envZ reqZ = true ∧
    ∃ payload, handleDrive envZ reqZ = .ok payload ∧ payload.cards = [] ∧
      ∀ c ∈ payload.cards, c.source ≠ "estimated" := by
  refine ⟨by decide, by decide, ⟨by decide, by decide, by decide⟩, by decide,
    { query := driveQueryOf envZ reqZ
      cards := sortCards (driveCardsOf envZ reqZ) (driveSortModeOf reqZ)
      excluded := excludedOf (driveFirstResultsOf envZ reqZ)
      nearby_leaderboard := envZ.leaderboard }, rfl, ?_, ?_⟩
  · decide
  · intro c hc
    rw [show sortCards (driveCardsOf envZ reqZ) (driveSortModeOf reqZ) = [] from by decide] at hc
    exact absurd hc (List.not_mem_nil c)

